import Mathlib

/-!
Shallow embedding of `NeoPixel-Christmas-Twinkle-Light.c` (the ChristmasPixel
twinkle-light state machine) together with theorems checking the
natural-language specification against it.

Modelling conventions:
* `unsigned long` timestamps are 32-bit on the target (AVR Arduino); a stored
  register value is a natural number taken modulo `2^32`, and the elapsed-time
  subtraction `millis() - stored` is modelled by `usub32`.
* The single `millis()` reading used by one animation step is the parameter
  `now`; the C code rereads the clock several times inside one call, but all
  claims treat one call as happening at one instant.
* Arduino `random(howbig)` returns `0` when `howbig = 0`, otherwise a value in
  `[0, howbig)`; it is modelled by `arduinoRandom howbig raw` where `raw` is
  the unknown output of the underlying generator.  The reseeding from
  `millis()` before each draw only influences which `raw` value comes next, so
  the raw values are simply parameters (the `Draws` record).
* The float computation `elapsedTimePercent = ms / speed`, clamped at `1.0`,
  followed by the float-to-`uint8_t` conversion of `255 - pct*255`
  (resp. `pct*255`), is modelled exactly: with `m := min ms speed` the
  truncated value equals `255 * (speed - m) / speed`
  (resp. `255 * m / speed`) in natural-number division.  The ratios appearing
  in the claims (`500/1000`, `1000/1000`, ...) are exactly representable, so
  the exact model and the float code agree on them.
* The two guards `if (brightness < 0)` and `if (brightness > 255)` in the C
  code are dead (an `uint8_t` is never outside `[0,255]`) and are therefore
  not part of the model.
-/

/-! ### Configuration constants (the `#define`s of the sketch) -/

def BLINK_PROBABILITY : Nat := 0

def BLINK_SPEED_FACTOR_PROBABILITY : Nat := 4

def BLINK_SPEED_FACTOR_MULTIPLIER_IN_MILLISECONDS : Nat := 100

def BLINK_SPEED_MINIMUM_IN_MILLISECONDS : Nat := 70

def BLINK_ZERO_BRIGHTNESS_DELAY_PROBABILITY_IN_MILLISECONDS : Nat := 5000

def BLINK_ZERO_BRIGHTNESS_DELAY_MINIMUM_IN_MILLISECONDS : Nat := 500

def BLINK_FULL_BRIGHTNESS_DELAY_PROBABILITY_IN_MILLISECONDS : Nat := 15000

def BLINK_FULL_BRIGHTNESS_DELAY_MINIMUM_IN_MILLISECONDS : Nat := 500

/-! ### 32-bit clock arithmetic -/

def UINT32_MOD : Nat := 4294967296

/-- `unsigned long` (32-bit) subtraction `a - b`, as used for every
elapsed-time computation (`millis() - storedTimestamp`). -/
def usub32 (a b : Nat) : Nat :=
  (a % UINT32_MOD + (UINT32_MOD - b % UINT32_MOD)) % UINT32_MOD

/-- Arduino `random(howbig)`: `0` when `howbig = 0`, otherwise the raw
generator output reduced into `[0, howbig)`. -/
def arduinoRandom (howbig raw : Nat) : Nat :=
  if howbig = 0 then 0 else raw % howbig

/-! ### The data model -/

/-- The `direction` enum of the sketch (`up` = brightening, `down` = dimming). -/
inductive Direction where
  | up
  | down
  deriving DecidableEq, Repr

/-- The `hue` enum values of the sketch (`enum hue { red = 0, ... }`). -/
def red : Nat := 0

def green : Nat := 1

def blue : Nat := 2

def yellow : Nat := 3

def purple : Nat := 4

def orange : Nat := 5

/-- One `ChristmasPixel` object.  Field names follow the C members (without
their leading underscore); `hue` is the raw enum value, kept as a natural
number because the C enum can in principle hold values outside the six
enumerators (the constructor leaves `_hue` indeterminate). -/
structure ChristmasPixel where
  hue : Nat
  direction : Direction
  brightness : Nat
  shouldBlink : Bool
  setTime : Nat
  timeZeroBrightnessWasEncountered : Nat
  timeFullBrightnessWasEncountered : Nat
  blinkSpeedFactor : Nat
  zeroBrightnessDelayInMilliseconds : Nat
  fullBrightnessDelayInMilliseconds : Nat
  deriving DecidableEq, Repr

/-- The raw random-generator outputs consumed by the four re-randomizations of
one animation step (in call order). -/
structure Draws where
  hueRaw : Nat
  speedRaw : Nat
  zeroRaw : Nat
  fullRaw : Nat
  deriving DecidableEq, Repr

/-- An RGB triple, the contract-level view of `strip.Color(r, g, b)`. -/
structure RGB where
  r : Nat
  g : Nat
  b : Nat
  deriving DecidableEq, Repr

/-! ### The randomizers (`ChristmasPixel::Randomize*`) -/

/-- `RandomizeColor`: `_hue = (hue)random(6);`. -/
def RandomizeColor (p : ChristmasPixel) (raw : Nat) : ChristmasPixel :=
  { p with hue := arduinoRandom 6 raw }

/-- `RandomizeSpeedFactor`: `_blinkSpeedFactor = random(BLINK_SPEED_FACTOR_PROBABILITY);`
(the store is into a `uint8_t`, hence the `% 256`). -/
def RandomizeSpeedFactor (p : ChristmasPixel) (raw : Nat) : ChristmasPixel :=
  { p with blinkSpeedFactor := arduinoRandom BLINK_SPEED_FACTOR_PROBABILITY raw % 256 }

/-- `RandomizeBlinkability`: `_shouldBlink = random(BLINK_PROBABILITY) == 0;`. -/
def RandomizeBlinkability (p : ChristmasPixel) (raw : Nat) : ChristmasPixel :=
  { p with shouldBlink := arduinoRandom BLINK_PROBABILITY raw == 0 }

/-- `RandomizeZeroBrightnessDelay`: draw plus minimum, stored into a `uint16_t`. -/
def RandomizeZeroBrightnessDelay (p : ChristmasPixel) (raw : Nat) : ChristmasPixel :=
  { p with zeroBrightnessDelayInMilliseconds :=
      (arduinoRandom BLINK_ZERO_BRIGHTNESS_DELAY_PROBABILITY_IN_MILLISECONDS raw
        + BLINK_ZERO_BRIGHTNESS_DELAY_MINIMUM_IN_MILLISECONDS) % 65536 }

/-- `RandomizeFullBrightnessDelay`: draw plus minimum, stored into a `uint16_t`. -/
def RandomizeFullBrightnessDelay (p : ChristmasPixel) (raw : Nat) : ChristmasPixel :=
  { p with fullBrightnessDelayInMilliseconds :=
      (arduinoRandom BLINK_FULL_BRIGHTNESS_DELAY_PROBABILITY_IN_MILLISECONDS raw
        + BLINK_FULL_BRIGHTNESS_DELAY_MINIMUM_IN_MILLISECONDS) % 65536 }

/-- `ChristmasPixel::_CalculateBlinkSpeed`: the ramp duration in milliseconds,
`factor * multiplier + minimum`, stored into a `uint16_t`. -/
def CalculateBlinkSpeed (p : ChristmasPixel) : Nat :=
  (p.blinkSpeedFactor * BLINK_SPEED_FACTOR_MULTIPLIER_IN_MILLISECONDS
    + BLINK_SPEED_MINIMUM_IN_MILLISECONDS) % 65536

/-- `ChristmasPixel::_CalculateBlinkAnimationParameters`, the per-call state
update, at clock reading `now` and with raw random draws `d`.  See the header
comment for how the float ramp computation is modelled exactly. -/
def CalculateBlinkAnimationParameters
    (p : ChristmasPixel) (now : Nat) (d : Draws) : ChristmasPixel :=
  if p.shouldBlink = true then
    if p.direction = Direction.down then
      if p.brightness = 0 then
        -- reached zero brightness: wait out the zero-brightness delay
        if usub32 now p.timeZeroBrightnessWasEncountered
            > p.zeroBrightnessDelayInMilliseconds then
          -- redefine the blinking light
          let p1 := { p with direction := Direction.up }
          let p2 := RandomizeColor p1 d.hueRaw
          let p3 := RandomizeSpeedFactor p2 d.speedRaw
          let p4 := RandomizeZeroBrightnessDelay p3 d.zeroRaw
          let p5 := RandomizeFullBrightnessDelay p4 d.fullRaw
          { p5 with setTime := now }
        else
          p
      else
        -- brightness is not zero: continue to decrease brightness
        let blinkSpeed := CalculateBlinkSpeed p
        let millisecondsSinceSet := usub32 now p.setTime
        -- float: pct := ms / speed clamped at 1.0; brightness := trunc(255 - pct*255)
        let clamped := min millisecondsSinceSet blinkSpeed
        let newBrightness := 255 * (blinkSpeed - clamped) / blinkSpeed
        if newBrightness = 0 then
          { p with brightness := newBrightness,
                   timeZeroBrightnessWasEncountered := now }
        else
          { p with brightness := newBrightness }
    else
      if p.brightness = 255 then
        -- reached full brightness: wait out the full-brightness delay
        if usub32 now p.timeFullBrightnessWasEncountered
            > p.fullBrightnessDelayInMilliseconds then
          { p with direction := Direction.down, brightness := 255, setTime := now }
        else
          p
      else
        -- brightness is not 255: continue to increase brightness
        let blinkSpeed := CalculateBlinkSpeed p
        let millisecondsSinceSet := usub32 now p.setTime
        -- float: pct := ms / speed clamped at 1.0; brightness := trunc(pct*255)
        let clamped := min millisecondsSinceSet blinkSpeed
        let newBrightness := 255 * clamped / blinkSpeed
        if newBrightness = 255 then
          { p with brightness := newBrightness,
                   timeFullBrightnessWasEncountered := now }
        else
          { p with brightness := newBrightness }
  else
    p

/-- The six-case `switch (this->_hue)` of `ChristmasPixel::GetColor`, as a
function of the raw hue value and the brightness.  The C switch has no
default branch; falling off the end of the function (raw hue outside the six
enumerators) is the undefined-return path, modelled as `none`. -/
def getColorFor (h bright : Nat) : Option RGB :=
  match h with
  | 0 => some { r := bright * 255 / 255, g := 0, b := 0 }                      -- red
  | 1 => some { r := 0, g := bright * 255 / 255, b := 0 }                      -- green
  | 2 => some { r := 0, g := 0, b := bright * 255 / 255 }                      -- blue
  | 3 => some { r := bright * 255 / 255, g := bright * 100 / 255, b := 0 }     -- yellow
  | 4 => some { r := bright * 200 / 255, g := 0, b := bright * 200 / 255 }     -- purple
  | 5 => some { r := bright * 255 / 255, g := bright * 30 / 255, b := 0 }      -- orange
  | _ => none

/-- `ChristmasPixel::GetColor`: advance the animation state, then compose the
color from the updated hue and brightness.  Returns the post-call object and
the color. -/
def GetColor (p : ChristmasPixel) (now : Nat) (d : Draws) :
    ChristmasPixel × Option RGB :=
  let q := CalculateBlinkAnimationParameters p now d
  (q, getColorFor q.hue q.brightness)

/-- The state after a sequence of `GetColor` calls, each given by its clock
reading and its raw random draws. -/
def runCalls (p : ChristmasPixel) (calls : List (Nat × Draws)) : ChristmasPixel :=
  calls.foldl (fun q c => (GetColor q c.1 c.2).1) p

/-- Any one of the public operations of a `ChristmasPixel`. -/
inductive PixelOp where
  | callGetColor (now : Nat) (d : Draws)
  | randColor (raw : Nat)
  | randSpeed (raw : Nat)
  | randBlink (raw : Nat)
  | randZero (raw : Nat)
  | randFull (raw : Nat)
  deriving Repr

/-- Apply one public operation to the pixel state. -/
def applyOp (p : ChristmasPixel) (op : PixelOp) : ChristmasPixel :=
  match op with
  | PixelOp.callGetColor now d => (GetColor p now d).1
  | PixelOp.randColor raw => RandomizeColor p raw
  | PixelOp.randSpeed raw => RandomizeSpeedFactor p raw
  | PixelOp.randBlink raw => RandomizeBlinkability p raw
  | PixelOp.randZero raw => RandomizeZeroBrightnessDelay p raw
  | PixelOp.randFull raw => RandomizeFullBrightnessDelay p raw

/-- The state after a sequence of public operations. -/
def runOps (p : ChristmasPixel) (ops : List PixelOp) : ChristmasPixel :=
  ops.foldl applyOp p

/-! ### Spec-side definitions (for refinement claims)

These follow the wording of the specification, to be compared with the
definitions above that were translated from the code. -/

/-- Spec formula for the dimming ramp: `255 x (1 - min(elapsed/ramp, 1))`,
truncated to an integer brightness. -/
def specDimBrightness (elapsed ramp : Nat) : Nat :=
  Nat.floor ((255 : ℚ) * (1 - min ((elapsed : ℚ) / (ramp : ℚ)) 1))

/-- Spec formula for the brightening ramp: `255 x min(elapsed/ramp, 1)`,
truncated to an integer brightness. -/
def specBrightenBrightness (elapsed ramp : Nat) : Nat :=
  Nat.floor ((255 : ℚ) * min ((elapsed : ℚ) / (ramp : ℚ)) 1)

/-- Spec-side per-hue channel-weight table (glossary table of the spec):
for each of the six hues the `(red, green, blue)` channel weights. -/
def hueWeights (h : Nat) : Nat × Nat × Nat :=
  match h with
  | 0 => (255, 0, 0)
  | 1 => (0, 255, 0)
  | 2 => (0, 0, 255)
  | 3 => (255, 100, 0)
  | 4 => (200, 0, 200)
  | 5 => (255, 30, 0)
  | _ => (0, 0, 0)

/-! ### Concrete objects used by witnesses and counterexamples -/

/-- A fixed draw record used in witnesses. -/
def exampleDraws : Draws :=
  { hueRaw := 2, speedRaw := 1, zeroRaw := 40, fullRaw := 90 }

/-- A blinking pixel mid-dimming: speed factor 0 (ramp 70 ms), ramp started at
clock 0. -/
def examplePixel : ChristmasPixel :=
  { hue := 0
    direction := Direction.down
    brightness := 255
    shouldBlink := true
    setTime := 0
    timeZeroBrightnessWasEncountered := 0
    timeFullBrightnessWasEncountered := 0
    blinkSpeedFactor := 0
    zeroBrightnessDelayInMilliseconds := 500
    fullBrightnessDelayInMilliseconds := 500 }

/-- A blinking pixel at zero brightness whose zero-brightness dwell has
elapsed at clock 1000. -/
def exampleZeroPixel : ChristmasPixel :=
  { hue := 1
    direction := Direction.down
    brightness := 0
    shouldBlink := true
    setTime := 0
    timeZeroBrightnessWasEncountered := 70
    timeFullBrightnessWasEncountered := 0
    blinkSpeedFactor := 0
    zeroBrightnessDelayInMilliseconds := 500
    fullBrightnessDelayInMilliseconds := 500 }

/-- A blinking pixel at full brightness whose full-brightness dwell has
elapsed at clock 1000. -/
def exampleFullPixel : ChristmasPixel :=
  { hue := 4
    direction := Direction.up
    brightness := 255
    shouldBlink := true
    setTime := 0
    timeZeroBrightnessWasEncountered := 0
    timeFullBrightnessWasEncountered := 70
    blinkSpeedFactor := 2
    zeroBrightnessDelayInMilliseconds := 500
    fullBrightnessDelayInMilliseconds := 500 }

/-- The cycle scenario of claim C7: both dwell delays zero, dimming from
clock 0 with ramp 70 ms. -/
def cyclePixel : ChristmasPixel :=
  { hue := 3
    direction := Direction.down
    brightness := 255
    shouldBlink := true
    setTime := 0
    timeZeroBrightnessWasEncountered := 0
    timeFullBrightnessWasEncountered := 0
    blinkSpeedFactor := 0
    zeroBrightnessDelayInMilliseconds := 0
    fullBrightnessDelayInMilliseconds := 0 }

/-- A non-blinking pixel with an arbitrary brightness. -/
def staticPixel : ChristmasPixel :=
  { hue := 5
    direction := Direction.down
    brightness := 200
    shouldBlink := false
    setTime := 3
    timeZeroBrightnessWasEncountered := 4
    timeFullBrightnessWasEncountered := 5
    blinkSpeedFactor := 1
    zeroBrightnessDelayInMilliseconds := 600
    fullBrightnessDelayInMilliseconds := 700 }

/-- A dimming pixel whose ramp started 20 ms before the 32-bit clock wraps
around. -/
def wrapPixel : ChristmasPixel :=
  { hue := 0
    direction := Direction.down
    brightness := 255
    shouldBlink := true
    setTime := 4294967276
    timeZeroBrightnessWasEncountered := 0
    timeFullBrightnessWasEncountered := 0
    blinkSpeedFactor := 0
    zeroBrightnessDelayInMilliseconds := 500
    fullBrightnessDelayInMilliseconds := 500 }

/-! ### Helper lemmas -/

/-- The ramp duration is always positive: `factor * 100 + 70` is congruent to
`2 mod 4` while any multiple of `65536` is congruent to `0`, so the `uint16_t`
store never truncates it to zero. -/
lemma calculateBlinkSpeed_pos (p : ChristmasPixel) : 0 < CalculateBlinkSpeed p := by
  unfold CalculateBlinkSpeed BLINK_SPEED_FACTOR_MULTIPLIER_IN_MILLISECONDS
    BLINK_SPEED_MINIMUM_IN_MILLISECONDS
  omega

lemma scaled_div_le (s x : Nat) (hx : x ≤ s) : 255 * x / s ≤ 255 := by
  rcases Nat.eq_zero_or_pos s with hs | hs
  · simp [hs]
  · calc 255 * x / s ≤ 255 * s / s := Nat.div_le_div_right (Nat.mul_le_mul_left _ hx)
      _ = 255 := by rw [Nat.mul_div_cancel _ hs]

/-- One animation step keeps the brightness in the `uint8_t` range. -/
lemma step_brightness_le (p : ChristmasPixel) (now : Nat) (d : Draws)
    (h : p.brightness ≤ 255) :
    (CalculateBlinkAnimationParameters p now d).brightness ≤ 255 := by
  unfold CalculateBlinkAnimationParameters
  split
  · split
    · split
      · split
        · simpa [RandomizeFullBrightnessDelay, RandomizeZeroBrightnessDelay,
            RandomizeSpeedFactor, RandomizeColor] using h
        · exact h
      · dsimp only
        split
        · exact scaled_div_le _ _ (Nat.sub_le _ _)
        · exact scaled_div_le _ _ (Nat.sub_le _ _)
    · split
      · split
        · simp
        · exact h
      · dsimp only
        split
        · exact scaled_div_le _ _ (Nat.min_le_right _ _)
        · exact scaled_div_le _ _ (Nat.min_le_right _ _)
  · exact h

/-- A step of a non-blinking pixel is the identity. -/
lemma step_noBlink (p : ChristmasPixel) (now : Nat) (d : Draws)
    (h : p.shouldBlink = false) :
    CalculateBlinkAnimationParameters p now d = p := by
  unfold CalculateBlinkAnimationParameters
  simp [h]

/-- Claim C1: for every pixel and after every sequence of `GetColor()` calls,
the brightness stays an integer in `[0, 255]` (it is a natural number, so the
lower bound is inherent); no state transition writes a value outside the
range. -/
theorem claim_C1 (p : ChristmasPixel) (calls : List (Nat × Draws))
    (h : p.brightness ≤ 255) :
    (runCalls p calls).brightness ≤ 255 := by
  induction calls generalizing p with
  | nil => exact h
  | cons c rest ih => exact ih _ (step_brightness_le p c.1 c.2 h)

/-- Witness for C1 at a concrete pixel and a concrete two-call schedule. -/
theorem claim_C1_witness :
    (runCalls examplePixel [(35, exampleDraws), (700, exampleDraws)]).brightness ≤ 255 :=
  claim_C1 examplePixel [(35, exampleDraws), (700, exampleDraws)] (by decide)

/-- Claim C8: if the blink-enabled flag is false, every sequence of
`GetColor()` calls leaves the whole state (in particular the brightness)
unchanged: the state-advancing computation is skipped entirely. -/
theorem claim_C8 (p : ChristmasPixel) (calls : List (Nat × Draws))
    (h : p.shouldBlink = false) :
    runCalls p calls = p := by
  induction calls generalizing p with
  | nil => rfl
  | cons c rest ih =>
      show runCalls (CalculateBlinkAnimationParameters p c.1 c.2) rest = p
      rw [step_noBlink p c.1 c.2 h]
      exact ih p h

/-- Witness for C8 at a concrete non-blinking pixel and schedule. -/
theorem claim_C8_witness :
    runCalls staticPixel [(35, exampleDraws), (9000, exampleDraws)] = staticPixel :=
  claim_C8 staticPixel [(35, exampleDraws), (9000, exampleDraws)] (by decide)

/-- In mid-dim, the step's brightness is `255 * (s - min e s) / s` for
`e` the elapsed time and `s` the ramp duration. -/
lemma step_dim_brightness (p : ChristmasPixel) (now : Nat) (d : Draws)
    (hb : p.shouldBlink = true) (hdir : p.direction = Direction.down)
    (hbr : p.brightness ≠ 0) :
    (CalculateBlinkAnimationParameters p now d).brightness
      = 255 * (CalculateBlinkSpeed p
          - min (usub32 now p.setTime) (CalculateBlinkSpeed p)) / CalculateBlinkSpeed p := by
  unfold CalculateBlinkAnimationParameters
  rw [if_pos hb, if_pos hdir, if_neg hbr]
  dsimp only
  split <;> rfl

/-- In mid-brighten, the step's brightness is `255 * min e s / s`. -/
lemma step_up_brightness (p : ChristmasPixel) (now : Nat) (d : Draws)
    (hb : p.shouldBlink = true) (hdir : p.direction = Direction.up)
    (hbr : p.brightness ≠ 255) :
    (CalculateBlinkAnimationParameters p now d).brightness
      = 255 * min (usub32 now p.setTime) (CalculateBlinkSpeed p) / CalculateBlinkSpeed p := by
  unfold CalculateBlinkAnimationParameters
  rw [if_pos hb, if_neg (show ¬p.direction = Direction.down by simp [hdir]), if_neg hbr]
  dsimp only
  split <;> rfl

/-- When the whole ramp duration has elapsed mid-dim, the step records the
zero-brightness time and the brightness becomes zero. -/
lemma step_dim_reaches_zero (p : ChristmasPixel) (now : Nat) (d : Draws)
    (hb : p.shouldBlink = true) (hdir : p.direction = Direction.down)
    (hbr : p.brightness ≠ 0) (hel : CalculateBlinkSpeed p ≤ usub32 now p.setTime) :
    (CalculateBlinkAnimationParameters p now d).brightness = 0
      ∧ (CalculateBlinkAnimationParameters p now d).timeZeroBrightnessWasEncountered
          = now := by
  unfold CalculateBlinkAnimationParameters
  rw [if_pos hb, if_pos hdir, if_neg hbr]
  dsimp only
  rw [min_eq_right hel]
  simp

/-- The code's dimming computation equals the spec formula
`255 x (1 - min(elapsed/ramp, 1))` truncated. -/
lemma specDim_eq (e s : Nat) (hs : 0 < s) :
    specDimBrightness e s = 255 * (s - min e s) / s := by
  have hsQ : (0 : ℚ) < (s : ℚ) := by exact_mod_cast hs
  have hs' : ((s : ℚ)) ≠ 0 := hsQ.ne'
  unfold specDimBrightness
  rcases le_or_lt e s with h | h
  · have hmin : min ((e : ℚ) / (s : ℚ)) 1 = (e : ℚ) / (s : ℚ) := by
      apply min_eq_left
      rw [div_le_one hsQ]
      exact_mod_cast h
    have hval : (255 : ℚ) * (1 - (e : ℚ) / (s : ℚ))
        = ((255 * (s - e) : ℕ) : ℚ) / ((s : ℕ) : ℚ) := by
      push_cast [Nat.cast_sub h]
      field_simp
    rw [hmin, min_eq_left h, hval]
    rw [Nat.floor_div_nat, Nat.floor_natCast]
  · have hmin : min ((e : ℚ) / (s : ℚ)) 1 = 1 := by
      apply min_eq_right
      rw [le_div_iff₀ hsQ]
      simpa using (by exact_mod_cast h.le : (s : ℚ) ≤ (e : ℚ))
    rw [hmin, min_eq_right h.le]
    simp

/-- The code's brightening computation equals the spec formula
`255 x min(elapsed/ramp, 1)` truncated. -/
lemma specBrighten_eq (e s : Nat) (hs : 0 < s) :
    specBrightenBrightness e s = 255 * min e s / s := by
  have hsQ : (0 : ℚ) < (s : ℚ) := by exact_mod_cast hs
  have hs' : ((s : ℚ)) ≠ 0 := hsQ.ne'
  unfold specBrightenBrightness
  rcases le_or_lt e s with h | h
  · have hmin : min ((e : ℚ) / (s : ℚ)) 1 = (e : ℚ) / (s : ℚ) := by
      apply min_eq_left
      rw [div_le_one hsQ]
      exact_mod_cast h
    have hval : (255 : ℚ) * ((e : ℚ) / (s : ℚ)) = ((255 * e : ℕ) : ℚ) / ((s : ℕ) : ℚ) := by
      push_cast
      ring
    rw [hmin, min_eq_left h, hval]
    rw [Nat.floor_div_nat, Nat.floor_natCast]
  · have hmin : min ((e : ℚ) / (s : ℚ)) 1 = 1 := by
      apply min_eq_right
      rw [le_div_iff₀ hsQ]
      simpa using (by exact_mod_cast h.le : (s : ℚ) ≤ (e : ℚ))
    rw [hmin, min_eq_right h.le, Nat.mul_div_cancel _ hs]
    simp

/-- Claim C2: while a blinking pixel is mid-ramp, its brightness after the
call is the spec's linear function of the elapsed time since the phase start
(`255 x (1 - min(elapsed/ramp, 1))` while dimming, `255 x min(elapsed/ramp, 1)`
while brightening); the formula yields 127 (within the claimed +-1 of 127) at
elapsed 500 of ramp 1000 and 0 at elapsed 1000, and once the full ramp has
elapsed while dimming the call stores the current clock value in
`_timeZeroBrightnessWasEncountered`. -/
theorem claim_C2 (p : ChristmasPixel) (now : Nat) (d : Draws)
    (hb : p.shouldBlink = true) :
    (p.direction = Direction.down → p.brightness ≠ 0 →
      (CalculateBlinkAnimationParameters p now d).brightness
        = specDimBrightness (usub32 now p.setTime) (CalculateBlinkSpeed p))
    ∧ (p.direction = Direction.up → p.brightness ≠ 255 →
      (CalculateBlinkAnimationParameters p now d).brightness
        = specBrightenBrightness (usub32 now p.setTime) (CalculateBlinkSpeed p))
    ∧ specDimBrightness 500 1000 = 127
    ∧ specDimBrightness 1000 1000 = 0
    ∧ (p.direction = Direction.down → p.brightness ≠ 0 →
        CalculateBlinkSpeed p ≤ usub32 now p.setTime →
        (CalculateBlinkAnimationParameters p now d).brightness = 0
          ∧ (CalculateBlinkAnimationParameters p now d).timeZeroBrightnessWasEncountered
              = now) := by
  refine ⟨?_, ?_, ?_, ?_, ?_⟩
  · intro hdir hbr
    rw [step_dim_brightness p now d hb hdir hbr,
      specDim_eq _ _ (calculateBlinkSpeed_pos p)]
  · intro hdir hbr
    rw [step_up_brightness p now d hb hdir hbr,
      specBrighten_eq _ _ (calculateBlinkSpeed_pos p)]
  · rw [specDim_eq 500 1000 (by norm_num)]
    decide
  · rw [specDim_eq 1000 1000 (by norm_num)]
    decide
  · intro hdir hbr hel
    exact step_dim_reaches_zero p now d hb hdir hbr hel

/-- Witness for C2: the mid-ramp formula and the zero-time recording at a
concrete pixel (ramp 70 ms, calls at 35 ms and at 70 ms elapsed). -/
theorem claim_C2_witness :
    ((CalculateBlinkAnimationParameters examplePixel 35 exampleDraws).brightness
        = specDimBrightness (usub32 35 examplePixel.setTime)
            (CalculateBlinkSpeed examplePixel))
    ∧ specDimBrightness 500 1000 = 127
    ∧ ((CalculateBlinkAnimationParameters examplePixel 70 exampleDraws).brightness = 0
        ∧ (CalculateBlinkAnimationParameters examplePixel 70
            exampleDraws).timeZeroBrightnessWasEncountered = 70) :=
  ⟨(claim_C2 examplePixel 35 exampleDraws rfl).1 rfl (by decide),
   (claim_C2 examplePixel 35 exampleDraws rfl).2.2.1,
   (claim_C2 examplePixel 70 exampleDraws rfl).2.2.2.2 rfl (by decide) (by decide)⟩

/-- When the zero-brightness dwell has not yet elapsed, the call leaves the
state unchanged. -/
lemma step_zero_dwell_hold (p : ChristmasPixel) (now : Nat) (d : Draws)
    (hb : p.shouldBlink = true) (hdir : p.direction = Direction.down)
    (hbr : p.brightness = 0)
    (hnot : ¬ usub32 now p.timeZeroBrightnessWasEncountered
        > p.zeroBrightnessDelayInMilliseconds) :
    CalculateBlinkAnimationParameters p now d = p := by
  unfold CalculateBlinkAnimationParameters
  rw [if_pos hb, if_pos hdir, if_pos hbr, if_neg hnot]

/-- When the zero-brightness dwell has elapsed, the call performs the
zero-to-brightening transition. -/
lemma step_zero_dwell_fire (p : ChristmasPixel) (now : Nat) (d : Draws)
    (hb : p.shouldBlink = true) (hdir : p.direction = Direction.down)
    (hbr : p.brightness = 0)
    (hlt : usub32 now p.timeZeroBrightnessWasEncountered
        > p.zeroBrightnessDelayInMilliseconds) :
    CalculateBlinkAnimationParameters p now d =
      { p with direction := Direction.up,
               hue := arduinoRandom 6 d.hueRaw,
               blinkSpeedFactor :=
                 arduinoRandom BLINK_SPEED_FACTOR_PROBABILITY d.speedRaw % 256,
               zeroBrightnessDelayInMilliseconds :=
                 (arduinoRandom BLINK_ZERO_BRIGHTNESS_DELAY_PROBABILITY_IN_MILLISECONDS
                     d.zeroRaw
                   + BLINK_ZERO_BRIGHTNESS_DELAY_MINIMUM_IN_MILLISECONDS) % 65536,
               fullBrightnessDelayInMilliseconds :=
                 (arduinoRandom BLINK_FULL_BRIGHTNESS_DELAY_PROBABILITY_IN_MILLISECONDS
                     d.fullRaw
                   + BLINK_FULL_BRIGHTNESS_DELAY_MINIMUM_IN_MILLISECONDS) % 65536,
               setTime := now } := by
  unfold CalculateBlinkAnimationParameters
  rw [if_pos hb, if_pos hdir, if_pos hbr, if_pos hlt]
  dsimp only
  simp [RandomizeColor, RandomizeSpeedFactor, RandomizeZeroBrightnessDelay,
    RandomizeFullBrightnessDelay]

/-- Claim C3: at zero brightness while dimming, the call transitions the
phase to Brightening if and only if the elapsed time since
`_timeZeroBrightnessWasEncountered` exceeds the zero-brightness delay; on the
transition it re-randomizes hue, speed factor, zero-dwell and full-dwell and
resets `_setTime` to the current clock value. -/
theorem claim_C3 (p : ChristmasPixel) (now : Nat) (d : Draws)
    (hb : p.shouldBlink = true) (hdir : p.direction = Direction.down)
    (hbr : p.brightness = 0) :
    ((CalculateBlinkAnimationParameters p now d).direction = Direction.up
      ↔ usub32 now p.timeZeroBrightnessWasEncountered
          > p.zeroBrightnessDelayInMilliseconds)
    ∧ (usub32 now p.timeZeroBrightnessWasEncountered
          > p.zeroBrightnessDelayInMilliseconds →
        CalculateBlinkAnimationParameters p now d =
          { p with direction := Direction.up,
                   hue := arduinoRandom 6 d.hueRaw,
                   blinkSpeedFactor :=
                     arduinoRandom BLINK_SPEED_FACTOR_PROBABILITY d.speedRaw % 256,
                   zeroBrightnessDelayInMilliseconds :=
                     (arduinoRandom
                         BLINK_ZERO_BRIGHTNESS_DELAY_PROBABILITY_IN_MILLISECONDS
                         d.zeroRaw
                       + BLINK_ZERO_BRIGHTNESS_DELAY_MINIMUM_IN_MILLISECONDS) % 65536,
                   fullBrightnessDelayInMilliseconds :=
                     (arduinoRandom
                         BLINK_FULL_BRIGHTNESS_DELAY_PROBABILITY_IN_MILLISECONDS
                         d.fullRaw
                       + BLINK_FULL_BRIGHTNESS_DELAY_MINIMUM_IN_MILLISECONDS) % 65536,
                   setTime := now }) := by
  constructor
  · constructor
    · intro hup
      by_contra hnot
      rw [step_zero_dwell_hold p now d hb hdir hbr hnot, hdir] at hup
      exact absurd hup (by decide)
    · intro hlt
      rw [step_zero_dwell_fire p now d hb hdir hbr hlt]
  · intro hlt
    exact step_zero_dwell_fire p now d hb hdir hbr hlt

/-- Witness for C3 at a concrete zero-brightness pixel: at clock 1000 the
dwell (500 ms since clock 70) has elapsed. -/
theorem claim_C3_witness :
    ((CalculateBlinkAnimationParameters exampleZeroPixel 1000 exampleDraws).direction
        = Direction.up
      ↔ usub32 1000 exampleZeroPixel.timeZeroBrightnessWasEncountered
          > exampleZeroPixel.zeroBrightnessDelayInMilliseconds)
    ∧ CalculateBlinkAnimationParameters exampleZeroPixel 1000 exampleDraws =
        { exampleZeroPixel with
            direction := Direction.up,
            hue := arduinoRandom 6 exampleDraws.hueRaw,
            blinkSpeedFactor :=
              arduinoRandom BLINK_SPEED_FACTOR_PROBABILITY exampleDraws.speedRaw % 256,
            zeroBrightnessDelayInMilliseconds :=
              (arduinoRandom BLINK_ZERO_BRIGHTNESS_DELAY_PROBABILITY_IN_MILLISECONDS
                  exampleDraws.zeroRaw
                + BLINK_ZERO_BRIGHTNESS_DELAY_MINIMUM_IN_MILLISECONDS) % 65536,
            fullBrightnessDelayInMilliseconds :=
              (arduinoRandom BLINK_FULL_BRIGHTNESS_DELAY_PROBABILITY_IN_MILLISECONDS
                  exampleDraws.fullRaw
                + BLINK_FULL_BRIGHTNESS_DELAY_MINIMUM_IN_MILLISECONDS) % 65536,
            setTime := 1000 } :=
  ⟨(claim_C3 exampleZeroPixel 1000 exampleDraws rfl rfl rfl).1,
   (claim_C3 exampleZeroPixel 1000 exampleDraws rfl rfl rfl).2 (by decide)⟩

/-- Claim C4: at full brightness while brightening, once the elapsed time
since `_timeFullBrightnessWasEncountered` exceeds the full-brightness delay,
the call sets the phase to Dimming, keeps the brightness at 255, resets
`_setTime`, and leaves every other field (hue, speed factor, both dwell
delays, and the blink-enabled flag) unchanged: no re-randomization happens on
this transition. -/
theorem claim_C4 (p : ChristmasPixel) (now : Nat) (d : Draws)
    (hb : p.shouldBlink = true) (hdir : p.direction = Direction.up)
    (hbr : p.brightness = 255)
    (hel : usub32 now p.timeFullBrightnessWasEncountered
        > p.fullBrightnessDelayInMilliseconds) :
    CalculateBlinkAnimationParameters p now d
      = { p with direction := Direction.down, brightness := 255, setTime := now }
    ∧ (CalculateBlinkAnimationParameters p now d).hue = p.hue
    ∧ (CalculateBlinkAnimationParameters p now d).blinkSpeedFactor
        = p.blinkSpeedFactor
    ∧ (CalculateBlinkAnimationParameters p now d).zeroBrightnessDelayInMilliseconds
        = p.zeroBrightnessDelayInMilliseconds
    ∧ (CalculateBlinkAnimationParameters p now d).fullBrightnessDelayInMilliseconds
        = p.fullBrightnessDelayInMilliseconds
    ∧ (CalculateBlinkAnimationParameters p now d).shouldBlink = p.shouldBlink := by
  have heq : CalculateBlinkAnimationParameters p now d
      = { p with direction := Direction.down, brightness := 255, setTime := now } := by
    unfold CalculateBlinkAnimationParameters
    rw [if_pos hb, if_neg (show ¬p.direction = Direction.down by simp [hdir]),
      if_pos hbr, if_pos hel]
  refine ⟨heq, ?_, ?_, ?_, ?_, ?_⟩ <;> rw [heq]

/-- Witness for C4 at a concrete full-brightness pixel whose dwell has
elapsed. -/
theorem claim_C4_witness :
    CalculateBlinkAnimationParameters exampleFullPixel 1000 exampleDraws
      = { exampleFullPixel with
            direction := Direction.down, brightness := 255, setTime := 1000 }
    ∧ (CalculateBlinkAnimationParameters exampleFullPixel 1000 exampleDraws).hue
        = exampleFullPixel.hue :=
  ⟨(claim_C4 exampleFullPixel 1000 exampleDraws rfl rfl rfl (by decide)).1,
   (claim_C4 exampleFullPixel 1000 exampleDraws rfl rfl rfl (by decide)).2.1⟩

/-- Claim C5: on every zero-to-brightening transition the post-state equals
the state obtained by applying all five randomizers (hue, speed factor,
blink-enabled flag, zero-dwell, full-dwell) to the direction-flipped pixel,
for any raw draw for the blink flag: with `BLINK_PROBABILITY = 0` the
blink-flag re-roll computes `random(0) == 0`, i.e. `true`, which equals the
flag of every pixel that can reach this transition, so the code's four
explicit re-rolls produce exactly the all-five-re-rolled state. -/
theorem claim_C5 (p : ChristmasPixel) (now : Nat) (d : Draws) (blinkRaw : Nat)
    (hb : p.shouldBlink = true) (hdir : p.direction = Direction.down)
    (hbr : p.brightness = 0)
    (hlt : usub32 now p.timeZeroBrightnessWasEncountered
        > p.zeroBrightnessDelayInMilliseconds) :
    CalculateBlinkAnimationParameters p now d
      = { RandomizeFullBrightnessDelay
            (RandomizeZeroBrightnessDelay
              (RandomizeBlinkability
                (RandomizeSpeedFactor
                  (RandomizeColor { p with direction := Direction.up } d.hueRaw)
                  d.speedRaw)
                blinkRaw)
              d.zeroRaw)
            d.fullRaw
          with setTime := now } := by
  rw [step_zero_dwell_fire p now d hb hdir hbr hlt]
  simp [RandomizeColor, RandomizeSpeedFactor, RandomizeBlinkability,
    RandomizeZeroBrightnessDelay, RandomizeFullBrightnessDelay, arduinoRandom,
    BLINK_PROBABILITY, hb]

/-- Witness for C5 at a concrete transitioning pixel and an arbitrary
concrete blink draw. -/
theorem claim_C5_witness :
    CalculateBlinkAnimationParameters exampleZeroPixel 1000 exampleDraws
      = { RandomizeFullBrightnessDelay
            (RandomizeZeroBrightnessDelay
              (RandomizeBlinkability
                (RandomizeSpeedFactor
                  (RandomizeColor { exampleZeroPixel with direction := Direction.up }
                    exampleDraws.hueRaw)
                  exampleDraws.speedRaw)
                77)
              exampleDraws.zeroRaw)
            exampleDraws.fullRaw
          with setTime := 1000 } :=
  claim_C5 exampleZeroPixel 1000 exampleDraws 77 rfl rfl rfl (by decide)

/-- Claim C6: the color returned by `GetColor()` is a pure function of the
post-update `(hue, brightness)` pair, each channel being
`brightness * weight / 255` for the fixed per-hue weight table, and the four
quoted instances hold: Red at 128 gives (128,0,0), Yellow at 255 gives
(255,100,0), Purple at 255 gives (200,0,200), Orange at 255 gives (255,30,0). -/
theorem claim_C6 (p : ChristmasPixel) (now : Nat) (d : Draws) (h bright : Nat)
    (hh : h < 6) :
    (GetColor p now d).2
      = getColorFor (CalculateBlinkAnimationParameters p now d).hue
          (CalculateBlinkAnimationParameters p now d).brightness
    ∧ getColorFor h bright
        = some { r := bright * (hueWeights h).1 / 255,
                 g := bright * (hueWeights h).2.1 / 255,
                 b := bright * (hueWeights h).2.2 / 255 }
    ∧ getColorFor red 128 = some { r := 128, g := 0, b := 0 }
    ∧ getColorFor yellow 255 = some { r := 255, g := 100, b := 0 }
    ∧ getColorFor purple 255 = some { r := 200, g := 0, b := 200 }
    ∧ getColorFor orange 255 = some { r := 255, g := 30, b := 0 } := by
  refine ⟨rfl, ?_, by decide, by decide, by decide, by decide⟩
  interval_cases h <;> simp [getColorFor, hueWeights]

/-- Witness for C6: the weight-table form at hue yellow (3) and brightness 10,
plus one quoted instance. -/
theorem claim_C6_witness :
    getColorFor 3 10
      = some { r := 10 * (hueWeights 3).1 / 255,
               g := 10 * (hueWeights 3).2.1 / 255,
               b := 10 * (hueWeights 3).2.2 / 255 }
    ∧ getColorFor yellow 255 = some { r := 255, g := 100, b := 0 } :=
  ⟨(claim_C6 examplePixel 0 exampleDraws 3 10 (by decide)).2.1,
   (claim_C6 examplePixel 0 exampleDraws 3 10 (by decide)).2.2.2.1⟩

/-- `usub32` of a clock value with itself is zero. -/
lemma usub32_self (a : Nat) : usub32 a a = 0 := by
  unfold usub32 UINT32_MOD
  omega

/-- Reaching zero brightness mid-dim: the complete post-state. -/
lemma step_dim_reaches_zero_state (p : ChristmasPixel) (now : Nat) (d : Draws)
    (hb : p.shouldBlink = true) (hdir : p.direction = Direction.down)
    (hbr : p.brightness ≠ 0) (hel : CalculateBlinkSpeed p ≤ usub32 now p.setTime) :
    CalculateBlinkAnimationParameters p now d
      = { p with brightness := 0, timeZeroBrightnessWasEncountered := now } := by
  unfold CalculateBlinkAnimationParameters
  rw [if_pos hb, if_pos hdir, if_neg hbr]
  dsimp only
  rw [min_eq_right hel]
  simp

/-- Claim C7 (amended): with both dwell delays zero and ramp duration `R`, a
dimming call whose elapsed time is at least `R` drives the brightness to 0 and
records the zero time, the phase is still Dimming after that boundary call, a
second `GetColor()` at the same clock time is a no-op returning the same color
(idempotence at the boundary), and the transition to Brightening fires on the
first call with strictly positive elapsed time since the zero record. -/
theorem claim_C7 (p : ChristmasPixel) (now : Nat) (d d2 : Draws)
    (hb : p.shouldBlink = true) (hdir : p.direction = Direction.down)
    (hbr : p.brightness ≠ 0) (hz : p.zeroBrightnessDelayInMilliseconds = 0)
    (_hf : p.fullBrightnessDelayInMilliseconds = 0)
    (hel : CalculateBlinkSpeed p ≤ usub32 now p.setTime) :
    (CalculateBlinkAnimationParameters p now d).brightness = 0
    ∧ (CalculateBlinkAnimationParameters p now d).direction = Direction.down
    ∧ (CalculateBlinkAnimationParameters p now d).timeZeroBrightnessWasEncountered
        = now
    ∧ GetColor (CalculateBlinkAnimationParameters p now d) now d2
        = (CalculateBlinkAnimationParameters p now d, (GetColor p now d).2)
    ∧ (∀ now2 : Nat, ∀ d3 : Draws, 0 < usub32 now2 now →
        (CalculateBlinkAnimationParameters
            (CalculateBlinkAnimationParameters p now d) now2 d3).direction
          = Direction.up) := by
  have hq : CalculateBlinkAnimationParameters p now d
      = { p with brightness := 0, timeZeroBrightnessWasEncountered := now } :=
    step_dim_reaches_zero_state p now d hb hdir hbr hel
  have hold : CalculateBlinkAnimationParameters
      (CalculateBlinkAnimationParameters p now d) now d2
        = CalculateBlinkAnimationParameters p now d := by
    apply step_zero_dwell_hold
    · rw [hq]; exact hb
    · rw [hq]; exact hdir
    · rw [hq]
    · rw [hq]
      show ¬ usub32 now now > p.zeroBrightnessDelayInMilliseconds
      rw [usub32_self, hz]
      omega
  refine ⟨by rw [hq], by rw [hq]; exact hdir, by rw [hq], ?_, ?_⟩
  · show (CalculateBlinkAnimationParameters
        (CalculateBlinkAnimationParameters p now d) now d2,
      getColorFor
        (CalculateBlinkAnimationParameters
          (CalculateBlinkAnimationParameters p now d) now d2).hue
        (CalculateBlinkAnimationParameters
          (CalculateBlinkAnimationParameters p now d) now d2).brightness)
      = (CalculateBlinkAnimationParameters p now d, (GetColor p now d).2)
    rw [hold]
    rfl
  · intro now2 d3 hpos
    have hfire := step_zero_dwell_fire (CalculateBlinkAnimationParameters p now d)
      now2 d3 (by rw [hq]; exact hb) (by rw [hq]; exact hdir) (by rw [hq])
      (by rw [hq]
          show usub32 now2 now > p.zeroBrightnessDelayInMilliseconds
          rw [hz]
          exact hpos)
    rw [hfire]

/-- Witness for C7 at the concrete cycle scenario (ramp 70 ms, both dwells
zero): boundary call at clock 70, next call at clock 71. -/
theorem claim_C7_witness :
    (CalculateBlinkAnimationParameters cyclePixel 70 exampleDraws).brightness = 0
    ∧ GetColor (CalculateBlinkAnimationParameters cyclePixel 70 exampleDraws) 70
        exampleDraws
        = (CalculateBlinkAnimationParameters cyclePixel 70 exampleDraws,
           (GetColor cyclePixel 70 exampleDraws).2)
    ∧ (CalculateBlinkAnimationParameters
        (CalculateBlinkAnimationParameters cyclePixel 70 exampleDraws) 71
        exampleDraws).direction = Direction.up :=
  ⟨(claim_C7 cyclePixel 70 exampleDraws exampleDraws rfl rfl (by decide) rfl rfl
      (by decide)).1,
   (claim_C7 cyclePixel 70 exampleDraws exampleDraws rfl rfl (by decide) rfl rfl
      (by decide)).2.2.2.1,
   (claim_C7 cyclePixel 70 exampleDraws exampleDraws rfl rfl (by decide) rfl rfl
      (by decide)).2.2.2.2 71 exampleDraws (by decide)⟩

/-- Counterexample to C7 as stated: in the concrete cycle scenario the
boundary call at clock 70 reaches brightness 0, yet the phase is still
Dimming, and even a second call at the same clock time leaves the phase
Dimming — the pixel does not re-enter Brightening at the boundary (that
happens only strictly afterwards). -/
theorem claim_C7_cex :
    (CalculateBlinkAnimationParameters cyclePixel 70 exampleDraws).brightness = 0
    ∧ (CalculateBlinkAnimationParameters cyclePixel 70 exampleDraws).direction
        = Direction.down
    ∧ (CalculateBlinkAnimationParameters
        (CalculateBlinkAnimationParameters cyclePixel 70 exampleDraws) 70
        exampleDraws).direction = Direction.down := by
  decide

/-- Claim C9: every elapsed-time quantity is the 32-bit unsigned difference
of the current clock and a stored timestamp, and this is wraparound-safe:
whenever the true elapsed time is below `2^32`, the computed difference of the
wrapped register values is exactly the true elapsed time; concretely, a
dimming pixel whose ramp started 20 ms before the clock wrapped sees elapsed
70 ms at wrapped clock 50 and correctly finishes its 70 ms ramp. -/
theorem claim_C9 :
    (∀ t0 t1 : Nat, t0 ≤ t1 → t1 - t0 < UINT32_MOD →
      usub32 (t1 % UINT32_MOD) (t0 % UINT32_MOD) = t1 - t0)
    ∧ (CalculateBlinkAnimationParameters wrapPixel 50 exampleDraws).brightness = 0
    ∧ (CalculateBlinkAnimationParameters wrapPixel 50
        exampleDraws).timeZeroBrightnessWasEncountered = 50 := by
  refine ⟨?_, by decide, by decide⟩
  intro t0 t1 h1 h2
  unfold usub32 UINT32_MOD
  unfold UINT32_MOD at h2
  omega

/-- Witness for C9: the wraparound lemma applied at a ramp start 20 ms before
the 32-bit clock overflow and a reading 50 ms after it. -/
theorem claim_C9_witness :
    usub32 (4294967346 % UINT32_MOD) (4294967276 % UINT32_MOD)
      = 4294967346 - 4294967276 :=
  claim_C9.1 4294967276 4294967346 (by decide) (by decide)

/-- `random(6)` always produces one of the six hue enumerators. -/
lemma arduinoRandom6_lt (raw : Nat) : arduinoRandom 6 raw < 6 := by
  unfold arduinoRandom
  simp only [if_neg (by omega : ¬(6 : Nat) = 0)]
  exact Nat.mod_lt _ (by omega)

/-- One animation step either keeps the hue or re-draws it with `random(6)`. -/
lemma step_hue_cases (p : ChristmasPixel) (now : Nat) (d : Draws) :
    (CalculateBlinkAnimationParameters p now d).hue = p.hue
    ∨ (CalculateBlinkAnimationParameters p now d).hue = arduinoRandom 6 d.hueRaw := by
  unfold CalculateBlinkAnimationParameters
  split
  · split
    · split
      · split
        · right
          simp [RandomizeFullBrightnessDelay, RandomizeZeroBrightnessDelay,
            RandomizeSpeedFactor, RandomizeColor]
        · left; rfl
      · dsimp only
        split
        · left; rfl
        · left; rfl
    · split
      · split
        · left; rfl
        · left; rfl
      · dsimp only
        split
        · left; rfl
        · left; rfl
  · left; rfl

/-- Every public operation preserves the hue invariant `hue < 6`. -/
lemma applyOp_hue_lt (p : ChristmasPixel) (op : PixelOp) (h : p.hue < 6) :
    (applyOp p op).hue < 6 := by
  cases op with
  | callGetColor now d =>
      have hstep : applyOp p (PixelOp.callGetColor now d)
          = CalculateBlinkAnimationParameters p now d := rfl
      rw [hstep]
      rcases step_hue_cases p now d with hc | hc
      · rw [hc]; exact h
      · rw [hc]; exact arduinoRandom6_lt d.hueRaw
  | randColor raw => exact arduinoRandom6_lt raw
  | randSpeed raw =>
      simp only [applyOp, RandomizeSpeedFactor]
      exact h
  | randBlink raw =>
      simp only [applyOp, RandomizeBlinkability]
      exact h
  | randZero raw =>
      simp only [applyOp, RandomizeZeroBrightnessDelay]
      exact h
  | randFull raw =>
      simp only [applyOp, RandomizeFullBrightnessDelay]
      exact h

/-- The switch in `GetColor` hits a defined case for every hue below 6. -/
lemma getColorFor_total (h bright : Nat) (hh : h < 6) :
    getColorFor h bright ≠ none := by
  interval_cases h <;> simp [getColorFor]

/-- Claim C10: after `RandomizeColor()` the hue is one of the six enum values
(drawn from `random(6)`), every later operation preserves that, and hence the
six-case switch in `GetColor()` always takes a defined case: the fall-through
undefined-return path (`none` in the model) is unreachable once the hue has
been randomized at least once. -/
theorem claim_C10 (p : ChristmasPixel) (raw : Nat) (ops : List PixelOp)
    (bright : Nat) :
    (runOps (RandomizeColor p raw) ops).hue < 6
    ∧ getColorFor (runOps (RandomizeColor p raw) ops).hue bright ≠ none := by
  have hinv : ∀ q : ChristmasPixel, ∀ ops' : List PixelOp, q.hue < 6 →
      (runOps q ops').hue < 6 := by
    intro q ops'
    induction ops' generalizing q with
    | nil => exact fun hq => hq
    | cons o rest ih => exact fun hq => ih _ (applyOp_hue_lt q o hq)
  have h6 : (runOps (RandomizeColor p raw) ops).hue < 6 :=
    hinv _ ops (arduinoRandom6_lt raw)
  exact ⟨h6, getColorFor_total _ bright h6⟩
